import Mathlib

/-!
Shallow embedding of `src/data_ingestion/get_nrel_api.py`: the NREL EV-charging
ingestion pipeline.  The module fetches station records from an HTTP API in
batches of zip codes, normalises each response with pandas, and inserts the
result into a PostgreSQL table.

Modelling conventions:
* Field values are `V` (strings or integers); a pandas `NaN` / SQL `NULL`
  cell is `Option V = none`.
* A python dict (one raw API record) is an association list `RawRecord`;
  a JSON array element that is not a dict is `RawItem.nonMapping`.
* The outcome of `requests.get(url, timeout=...)` followed by
  `response.json()` and `json_data[endpoint]` is abstracted as a
  `FetchResult` supplied by the environment: `.ok items` when the request,
  JSON decoding and endpoint lookup all succeed, `.netError` when
  `requests.get` raises (connection error / timeout), `.badJson` when
  `response.json()` raises.
* Exceptions are `Except`: a `.error` value is a python exception
  propagating out of the modelled expression.  None of `api_to_df` or the
  batch loop in `fetch_and_insert_data` contains a `try`, so such an error
  aborts the run.
-/

/-- A field value appearing in an API record: a string or an integer. -/
inductive V where
  | str (s : String)
  | nat (n : Nat)
deriving DecidableEq, Repr

/-- A raw API record: a python dict, modelled as an association list from
field name to value (keys unique in practice; lookup takes the first hit). -/
abbrev RawRecord := List (String × V)

/-- One element of the JSON array at `json_data[endpoint]`: either a mapping
(a dict) or a structurally invalid non-mapping value (e.g. a bare number). -/
inductive RawItem where
  | record (r : RawRecord)
  | nonMapping
deriving DecidableEq, Repr

/-- Dict lookup: value of field `c` in record `r`, `none` when absent. -/
def lookupField (r : RawRecord) (c : String) : Option V :=
  (r.find? (fun p => p.1 = c)).map (fun p => p.2)

/-- A pandas DataFrame built from records: a column list plus one
association list per row.  A cell is `lookupField row col`; `none` models
`NaN` (a key the row's source dict did not define). -/
structure DataFrame where
  cols : List String
  rows : List RawRecord
deriving DecidableEq, Repr

/-- Pandas `.empty`: true when either axis has length 0 (no rows or no
columns). -/
def DataFrame.isEmpty (df : DataFrame) : Bool :=
  df.rows.isEmpty || df.cols.isEmpty

/-- Column set of `pd.DataFrame(list_of_dicts)`: union of the dicts' keys in
order of first appearance. -/
def addKeys (acc : List String) (r : RawRecord) : List String :=
  r.foldl (fun a p => if p.1 ∈ a then a else a ++ [p.1]) acc

/-- Union of keys over a record list, in order of first appearance. -/
def unionKeys (rs : List RawRecord) : List String :=
  rs.foldl addKeys []

/-- An exception raised inside `api_to_df`. -/
inductive Err where
  /-- `requests.get` raised: connection error or timeout. -/
  | requestException
  /-- `response.json()` raised: body is not JSON. -/
  | jsonDecodeError
  /-- pandas raised: `AttributeError` while building the frame from a list
  containing a non-mapping, or `KeyError` when `data_df[export_columns]`
  names a column the frame does not have. -/
  | pdError
deriving DecidableEq, Repr

/-- Semantics of `pd.DataFrame(items)` on the array found at the endpoint.
When every item is a dict the frame has the union of their keys as columns
and one row per dict.  When some item is not a mapping, the construction
(or, for a frame built with positional columns, the subsequent
`data_df[export_columns]` selection) raises; either way the surrounding
expression in `api_to_df` raises, so we return the error here. -/
def buildDataFrame (items : List RawItem) : Except Err DataFrame :=
  if items.any (fun it =>
      match it with
      | .nonMapping => true
      | .record _ => false) then
    .error .pdError
  else
    let recs := items.filterMap (fun it =>
      match it with
      | .record r => some r
      | .nonMapping => none)
    .ok ⟨unionKeys recs, recs⟩

/-- Semantics of `data_df[c] = v`: every row gets field `c` set to `v`; the
column is appended when new. -/
def setColumn (df : DataFrame) (c : String) (v : V) : DataFrame :=
  { cols := if c ∈ df.cols then df.cols else df.cols ++ [c]
    rows := df.rows.map (fun r =>
      r.filter (fun p => p.1 ≠ c) ++ [(c, v)]) }

/-- Semantics of `data_df[cols]`: reorders to exactly `cols`, raising
`KeyError` when some requested column is absent from the frame. -/
def selectColumns (df : DataFrame) (cs : List String) : Except Err DataFrame :=
  if cs.all (fun c => c ∈ df.cols) then
    .ok ⟨cs, df.rows⟩
  else
    .error .pdError

/-- The `export_columns` list of `api_to_df`, verbatim from the source. -/
def export_columns : List String :=
  [ "access_code", "access_detail_code", "date_last_confirmed",
    "expected_date", "fuel_type_code", "groups_with_access_code", "id",
    "open_date", "owner_type_code", "status_code", "updated_at",
    "facility_type", "geocode_status", "latitude", "longitude", "state",
    "zip", "country", "ev_dc_fast_num", "ev_level1_evse_num",
    "ev_level2_evse_num", "ev_network", "ev_renewable_source",
    "nps_unit_name", "batch_id" ]

/-- Outcome of the HTTP fetch and JSON decode inside `api_to_df`, supplied by
the environment per batch. -/
inductive FetchResult where
  | ok (items : List RawItem)
  | netError
  | badJson
deriving Repr

/-- Embedding of `api_to_df(zip_codes, api_key, endpoint, batch_id)`.  The
zip codes, key and endpoint only shape the URL; the network outcome is the
`FetchResult`.  The function has no `try`: every `.error` is an exception
propagating to the caller.  Mirrors the source line by line: fetch / decode,
`pd.DataFrame(json_data[endpoint])`, the `if not data_df.empty` guard,
`data_df["batch_id"] = batch_id`, and `data_df[export_columns]`. -/
def api_to_df (fr : FetchResult) (batch_id : Nat) : Except Err DataFrame :=
  match fr with
  | .netError => .error .requestException
  | .badJson => .error .jsonDecodeError
  | .ok items => do
    let data_df ← buildDataFrame items
    if data_df.isEmpty then
      .ok ⟨[], []⟩
    else
      selectColumns (setColumn data_df "batch_id" (V.nat batch_id))
        export_columns

/-- Outcome of `create_table`: the whole body sits in a
`try/except Exception` that prints the error and falls through to `finally`,
so the function returns normally in both cases. -/
inductive SchemaOutcome where
  | created
  | failedLogged
deriving DecidableEq, Repr

/-- Embedding of `create_table(db_credentials, schema_name)`.  `ok` is
whether connecting and running the `DROP TABLE ...; CREATE TABLE ...` DDL
succeeds.  On failure the exception is caught and only printed: the caller
cannot distinguish the outcomes and always continues. -/
def create_table (ok : Bool) : SchemaOutcome :=
  if ok then .created else .failedLogged

/-- A row as stored in the destination table: the insert's column list
zipped with the row's values (a `none` value is SQL `NULL`). -/
abbrev StoredRow := List (String × Option V)

/-- Values of row `r` in column order `cs` — `itertuples(index=False)`. -/
def tupleOf (cs : List String) (r : RawRecord) : List (Option V) :=
  cs.map (lookupField r)

/-- The stored form of DataFrame row `r` under insert column list `cs`. -/
def storedRowOf (cs : List String) (r : RawRecord) : StoredRow :=
  cs.map (fun c => (c, lookupField r c))

/-- Net effect of one `insert_data_to_postgres` call on the destination
table. -/
inductive LoadResult where
  /-- every `cur.execute` succeeded and `conn.commit()` ran: all rows of the
  batch become visible. -/
  | committed (rows : List StoredRow)
  /-- some `cur.execute` raised; the exception is re-raised, caught by the
  outer handler and printed (with `row` bound to the offending row), and the
  connection closes without commit: no row of the batch becomes visible. -/
  | rolledBack
  /-- `psycopg2.connect` raised before the row loop ran, so the outer
  handler's f-string references the never-bound loop
  variable `row` and itself raises `NameError`, which propagates out of the
  function. -/
  | nameError
deriving DecidableEq, Repr

/-- The `for row in data_df.itertuples(index=False): cur.execute(...)` loop:
rows accumulate in the open transaction until one raises.  `fails` is the
destination's per-row rejection (type mismatch, constraint violation). -/
def insertLoop (fails : List (Option V) → Bool) (cs : List String) :
    List RawRecord → List StoredRow → Except Unit (List StoredRow)
  | [], pending => .ok pending
  | r :: rs, pending =>
    if fails (tupleOf cs r) then .error ()
    else insertLoop fails cs rs (pending ++ [storedRowOf cs r])

/-- Embedding of `insert_data_to_postgres(data_df, db_credentials,
schema_name)`.  `connOk` is whether `psycopg2.connect` succeeds; `fails` is
the destination's per-row rejection.  The insert column list is
`data_df.columns.tolist()`. -/
def insert_data_to_postgres (connOk : Bool)
    (fails : List (Option V) → Bool) (data_df : DataFrame) : LoadResult :=
  if !connOk then .nameError
  else
    match insertLoop fails data_df.cols data_df.rows [] with
    | .ok pending => .committed pending
    | .error _ => .rolledBack

/-- Per-run environment: outcome of schema DDL, of each batch's fetch, of
each batch's load connection, and the destination's row rejection. -/
structure Env where
  schemaOk : Bool
  fetch : Nat → FetchResult
  connOk : Nat → Bool
  rowFails : List (Option V) → Bool

/-- An exception escaping the batch loop of `fetch_and_insert_data` (which
has no handler), aborting the run. -/
inductive RunError where
  /-- `api_to_df` raised while processing batch `b`. -/
  | fetchError (b : Nat) (e : Err)
  /-- `insert_data_to_postgres` raised `NameError` on batch `b` (connection
  failure before the row loop). -/
  | loaderNameError (b : Nat)
deriving DecidableEq, Repr

/-- State of a run: the destination table (each row tagged, as ghost
provenance only, with the batch id whose load inserted it), the batch ids
whose processing began, and the exception that aborted the run, if any. -/
structure RunState where
  db : List (Nat × StoredRow)
  attempted : List Nat
  aborted : Option RunError
deriving DecidableEq, Repr

/-- Effect of a load result on the table; committed rows are tagged with the
loading batch's id. -/
def applyLoad (b : Nat) (db : List (Nat × StoredRow)) :
    LoadResult → List (Nat × StoredRow)
  | .committed rows => db ++ rows.map (fun r => (b, r))
  | .rolledBack => db
  | .nameError => db

/-- The `for batch_id in tqdm(range(len(zip_code_chunks)))` loop of
`fetch_and_insert_data`, from batch `b` over the remaining chunks.  The loop
body has no `try`: an exception from `api_to_df` or a `NameError` from
`insert_data_to_postgres` aborts the run; a caught-and-printed load error
(`.rolledBack`) and an empty frame both just advance to the next batch. -/
def runBatches (env : Env) (db : List (Nat × StoredRow)) :
    List (List String) → Nat → RunState
  | [], _ => ⟨db, [], none⟩
  | _chunk :: rest, b =>
    match api_to_df (env.fetch b) b with
    | .error e => ⟨db, [b], some (.fetchError b e)⟩
    | .ok data_df =>
      if data_df.isEmpty then
        let st := runBatches env db rest (b + 1)
        ⟨st.db, b :: st.attempted, st.aborted⟩
      else
        match insert_data_to_postgres (env.connOk b) env.rowFails data_df with
        | .nameError => ⟨db, [b], some (.loaderNameError b)⟩
        | res =>
          let st := runBatches env (applyLoad b db res) rest (b + 1)
          ⟨st.db, b :: st.attempted, st.aborted⟩

/-- The chunking `[all_zip_codes[i : i + chunk_size] for i in
range(0, len(all_zip_codes), chunk_size)]`: `range(0, L, C)` has
`(L + C - 1) / C` elements (for `C > 0`), the `i`-th being `i * C`, and the
slice `l[i*C : i*C + C]` is `(l.drop (i*C)).take C`. -/
def zip_code_chunks (C : Nat) (l : List String) : List (List String) :=
  (List.range ((l.length + C - 1) / C)).map
    (fun i => (l.drop (i * C)).take C)

/-- Embedding of `fetch_and_insert_data(api_key, db_credentials,
schema_name)`: create the table (outcome logged only), chunk the enumerated
zip codes with `chunk_size = 50`, and run the batch loop from batch 0 on an
empty table (the DDL dropped any previous one). -/
def fetch_and_insert_data (env : Env) (all_zip_codes : List String) :
    SchemaOutcome × RunState :=
  (create_table env.schemaOk,
    runBatches env [] (zip_code_chunks 50 all_zip_codes) 0)

/-- The batch ids the orchestrator iterates over:
`range(len(zip_code_chunks))`. -/
def batchIds (chunks : List (List String)) : List Nat :=
  List.range chunks.length

/-- Lookup of a destination column's value in a stored row (`some none` is a
stored SQL `NULL`; `none` means the row has no such column). -/
def lookupStored (row : StoredRow) (c : String) : Option (Option V) :=
  (row.find? (fun p => p.1 = c)).map (fun p => p.2)

/-- Whether the fetch stage of `api_to_df` raises before pandas runs. -/
def fetchFails : FetchResult → Bool
  | .ok _ => false
  | .netError => true
  | .badJson => true

/-- A well-formed raw API record carrying every source field of
`export_columns` (all but the stamped `batch_id`), with source id 7. -/
def sampleRecord : RawRecord :=
  [ ("access_code", V.str "public"), ("access_detail_code", V.str "x"),
    ("date_last_confirmed", V.str "2023-01-01"), ("expected_date", V.str "e"),
    ("fuel_type_code", V.str "ELEC"), ("groups_with_access_code", V.str "g"),
    ("id", V.nat 7), ("open_date", V.str "o"), ("owner_type_code", V.str "P"),
    ("status_code", V.str "E"), ("updated_at", V.str "t"),
    ("facility_type", V.str "f"), ("geocode_status", V.str "GPS"),
    ("latitude", V.str "40.7"), ("longitude", V.str "-74.0"),
    ("state", V.str "NY"), ("zip", V.str "10001"), ("country", V.str "US"),
    ("ev_dc_fast_num", V.nat 1), ("ev_level1_evse_num", V.nat 2),
    ("ev_level2_evse_num", V.nat 3), ("ev_network", V.str "n"),
    ("ev_renewable_source", V.str "r"), ("nps_unit_name", V.str "u") ]

/-- `sampleRecord` with the `latitude` field absent. -/
def recordNoLatitude : RawRecord :=
  sampleRecord.filter (fun p => p.1 ≠ "latitude")

/-- Environment whose batch-0 fetch times out; everything else succeeds. -/
def envFetchFail : Env :=
  { schemaOk := true
    fetch := fun b => if b = 0 then .netError else .ok [.record sampleRecord]
    connOk := fun _ => true
    rowFails := fun _ => false }

/-- Environment whose schema DDL fails; everything else succeeds. -/
def envSchemaFail : Env :=
  { schemaOk := false
    fetch := fun _ => .ok [.record sampleRecord]
    connOk := fun _ => true
    rowFails := fun _ => false }

/-- Environment whose batch-0 load connection fails; everything else
succeeds. -/
def envConnFail : Env :=
  { schemaOk := true
    fetch := fun _ => .ok [.record sampleRecord]
    connOk := fun b => b != 0
    rowFails := fun _ => false }

/-- Environment whose fetches return one valid record followed by a
non-mapping array element. -/
def envInvalidRecord : Env :=
  { schemaOk := true
    fetch := fun _ => .ok [.record sampleRecord, .nonMapping]
    connOk := fun _ => true
    rowFails := fun _ => false }

/-- Fully healthy environment: every stage succeeds. -/
def envGood : Env :=
  { schemaOk := true
    fetch := fun _ => .ok [.record sampleRecord]
    connOk := fun _ => true
    rowFails := fun _ => false }

/-- 51 zip codes: two batches under `chunk_size = 50` (sizes 50 and 1). -/
def keysTwoBatches : List String :=
  List.replicate 51 "00501"

/-- One zip code: a single batch. -/
def keysOneBatch : List String :=
  ["00501"]

/-- Environment whose destination rejects every row; fetches succeed. -/
def envRowFail : Env :=
  { schemaOk := true
    fetch := fun _ => .ok [.record sampleRecord]
    connOk := fun _ => true
    rowFails := fun _ => true }

/-- The projected frame `api_to_df` yields for a response of exactly
`[sampleRecord]` under batch id `b`. -/
def projectedSample (b : Nat) : DataFrame :=
  ⟨export_columns, [sampleRecord ++ [("batch_id", V.nat b)]]⟩

/-- The destination row the insert produces from `sampleRecord` in batch 0. -/
def storedSampleRow : StoredRow :=
  storedRowOf export_columns (sampleRecord ++ [("batch_id", V.nat 0)])

/-! ### Batcher: properties of `zip_code_chunks` -/

theorem zip_code_chunks_nil (C : Nat) (hC : 0 < C) :
    zip_code_chunks C [] = [] := by
  unfold zip_code_chunks
  simp only [List.length_nil]
  have h : (0 + C - 1) / C = 0 := Nat.div_eq_of_lt (by omega)
  rw [h]
  rfl

theorem ceil_div_succ (C L : Nat) (hC : 0 < C) (hL : 0 < L) :
    (L + C - 1) / C = (L - 1) / C + 1 := by
  have h : L + C - 1 = (L - 1) + C := by omega
  rw [h, Nat.add_div_right _ hC]

theorem ceil_div_drop (C L : Nat) (hC : 0 < C) (hL : 0 < L) :
    (L - C + C - 1) / C = (L - 1) / C := by
  rcases Nat.le_total L C with h | h
  · have h1 : L - C = 0 := by omega
    rw [h1]
    have h2 : (0 + C - 1) / C = 0 := Nat.div_eq_of_lt (by omega)
    have h3 : (L - 1) / C = 0 := Nat.div_eq_of_lt (by omega)
    rw [h2, h3]
  · have h1 : L - C + C - 1 = L - 1 := by omega
    rw [h1]

theorem zip_code_chunks_cons (C : Nat) (hC : 0 < C) (l : List String)
    (hl : l ≠ []) :
    zip_code_chunks C l = l.take C :: zip_code_chunks C (l.drop C) := by
  have hL : 0 < l.length := List.length_pos.mpr hl
  unfold zip_code_chunks
  rw [List.length_drop, ceil_div_drop C l.length hC hL,
    ceil_div_succ C l.length hC hL, List.range_succ_eq_map, List.map_cons]
  congr 1
  · simp
  · rw [List.map_map]
    apply List.map_congr_left
    intro i _
    simp only [Function.comp_apply]
    rw [List.drop_drop, Nat.succ_mul, Nat.add_comm]

theorem zip_code_chunks_flatten_bounded (C : Nat) (hC : 0 < C) :
    ∀ (n : Nat) (l : List String), l.length ≤ n →
      (zip_code_chunks C l).flatten = l := by
  intro n
  induction n with
  | zero =>
    intro l hl
    have h0 : l = [] := List.length_eq_zero.mp (Nat.le_zero.mp hl)
    rw [h0, zip_code_chunks_nil C hC]
    rfl
  | succ n ih =>
    intro l hl
    cases l with
    | nil => rw [zip_code_chunks_nil C hC]; rfl
    | cons a t =>
      rw [zip_code_chunks_cons C hC (a :: t) (by simp), List.flatten_cons]
      have hb : ((a :: t).drop C).length ≤ n := by
        rw [List.length_drop]
        simp only [List.length_cons] at hl ⊢
        omega
      rw [ih _ hb]
      exact List.take_append_drop C (a :: t)

theorem zip_code_chunks_sizes_bounded (C : Nat) (hC : 0 < C) :
    ∀ (n : Nat) (l : List String), l.length ≤ n →
      ∀ c ∈ (zip_code_chunks C l).dropLast, c.length = C := by
  intro n
  induction n with
  | zero =>
    intro l hl
    have h0 : l = [] := List.length_eq_zero.mp (Nat.le_zero.mp hl)
    rw [h0, zip_code_chunks_nil C hC]
    intro c hc
    simp at hc
  | succ n ih =>
    intro l hl
    cases l with
    | nil =>
      rw [zip_code_chunks_nil C hC]
      intro c hc
      simp at hc
    | cons a t =>
      rw [zip_code_chunks_cons C hC (a :: t) (by simp)]
      have hb : ((a :: t).drop C).length ≤ n := by
        rw [List.length_drop]
        simp only [List.length_cons] at hl ⊢
        omega
      cases hrest : zip_code_chunks C ((a :: t).drop C) with
      | nil =>
        intro c hc
        simp at hc
      | cons x xs =>
        rw [List.dropLast_cons_of_ne_nil (by simp)]
        intro c hc
        rcases List.mem_cons.mp hc with rfl | hc2
        · have hne : (a :: t).drop C ≠ [] := by
            intro h0
            rw [h0, zip_code_chunks_nil C hC] at hrest
            exact List.cons_ne_nil x xs hrest.symm
          have hlen : C ≤ (a :: t).length := by
            by_contra hcon
            push_neg at hcon
            exact hne (List.drop_eq_nil_of_le (le_of_lt hcon))
          rw [List.length_take]
          exact Nat.min_eq_left hlen
        · rw [← hrest] at hc2
          exact ih ((a :: t).drop C) hb c hc2

/-- C6: for every key sequence of length L and chunk size C > 0, the chunk
comprehension of `fetch_and_insert_data` produces exactly
`(L + C - 1) / C = ⌈L / C⌉` batches whose concatenation is the input
sequence in original order, every batch except possibly the last has
exactly C keys, the batch ids the orchestrator enumerates are exactly
`0 .. ⌈L / C⌉ - 1` with no gaps, and an empty input yields an empty batch
sequence. -/
theorem batcher_partitions_keys (C : Nat) (l : List String) (hC : 0 < C) :
    (zip_code_chunks C l).length = (l.length + C - 1) / C ∧
    (zip_code_chunks C l).flatten = l ∧
    (∀ c ∈ (zip_code_chunks C l).dropLast, c.length = C) ∧
    batchIds (zip_code_chunks C l) = List.range ((l.length + C - 1) / C) ∧
    (l = [] → zip_code_chunks C l = []) := by
  refine ⟨?_, ?_, ?_, ?_, ?_⟩
  · simp [zip_code_chunks]
  · exact zip_code_chunks_flatten_bounded C hC l.length l (le_refl _)
  · exact zip_code_chunks_sizes_bounded C hC l.length l (le_refl _)
  · simp [batchIds, zip_code_chunks]
  · intro h0
    rw [h0]
    exact zip_code_chunks_nil C hC

/-- Instantiation of `batcher_partitions_keys` at C = 3 on a 5-key input. -/
theorem batcher_partitions_keys_witness :
    (zip_code_chunks 3 ["a", "b", "c", "d", "e"]).flatten =
      ["a", "b", "c", "d", "e"] :=
  (batcher_partitions_keys 3 ["a", "b", "c", "d", "e"] (by decide)).2.1

/-! ### BatchLoader: properties of `insert_data_to_postgres` -/

theorem insert_conn_ok (fails : List (Option V) → Bool) (data_df : DataFrame) :
    insert_data_to_postgres true fails data_df =
      match insertLoop fails data_df.cols data_df.rows [] with
      | .ok pending => .committed pending
      | .error _ => .rolledBack := rfl

theorem insertLoop_ok_of_all (fails : List (Option V) → Bool)
    (cs : List String) (rows : List RawRecord) (pending : List StoredRow)
    (h : ∀ r ∈ rows, fails (tupleOf cs r) = false) :
    insertLoop fails cs rows pending =
      .ok (pending ++ rows.map (storedRowOf cs)) := by
  induction rows generalizing pending with
  | nil => simp [insertLoop]
  | cons r rs ih =>
    have hr : fails (tupleOf cs r) = false := h r (List.mem_cons_self r rs)
    simp only [insertLoop, hr, Bool.false_eq_true, if_false, List.map_cons]
    rw [ih _ (fun x hx => h x (List.mem_cons_of_mem r hx))]
    simp

theorem insertLoop_error_of_exists (fails : List (Option V) → Bool)
    (cs : List String) (rows : List RawRecord) (pending : List StoredRow)
    (h : ∃ r ∈ rows, fails (tupleOf cs r) = true) :
    insertLoop fails cs rows pending = .error () := by
  induction rows generalizing pending with
  | nil =>
    rcases h with ⟨r, hr, _⟩
    exact absurd hr (List.not_mem_nil r)
  | cons r rs ih =>
    by_cases hf : fails (tupleOf cs r) = true
    · simp [insertLoop, hf]
    · have hf2 : fails (tupleOf cs r) = false := Bool.eq_false_iff.mpr hf
      simp only [insertLoop, hf2, Bool.false_eq_true, if_false]
      apply ih
      rcases h with ⟨x, hx, hfx⟩
      rcases List.mem_cons.mp hx with rfl | hx2
      · exact absurd hfx hf
      · exact ⟨x, hx2, hfx⟩

theorem insertLoop_ok_shape (fails : List (Option V) → Bool)
    (cs : List String) (rows : List RawRecord) :
    ∀ (pending out : List StoredRow),
      insertLoop fails cs rows pending = .ok out →
      out = pending ++ rows.map (storedRowOf cs) := by
  induction rows with
  | nil =>
    intro pending out h
    simp [insertLoop] at h
    simp [h.symm]
  | cons r rs ih =>
    intro pending out h
    by_cases hf : fails (tupleOf cs r) = true
    · simp [insertLoop, hf] at h
    · have hf2 : fails (tupleOf cs r) = false := Bool.eq_false_iff.mpr hf
      simp only [insertLoop, hf2, Bool.false_eq_true, if_false] at h
      have := ih _ _ h
      simp only [this, List.map_cons]
      simp

theorem insert_committed_rows (connOk : Bool) (fails : List (Option V) → Bool)
    (data_df : DataFrame) (rows : List StoredRow)
    (h : insert_data_to_postgres connOk fails data_df = .committed rows) :
    rows = data_df.rows.map (storedRowOf data_df.cols) := by
  cases connOk with
  | false => simp [insert_data_to_postgres] at h
  | true =>
    rw [insert_conn_ok] at h
    cases hl : insertLoop fails data_df.cols data_df.rows [] with
    | ok pending =>
      rw [hl] at h
      simp at h
      have := insertLoop_ok_shape fails data_df.cols data_df.rows [] pending hl
      simp at this
      rw [← h, this]
    | error e =>
      rw [hl] at h
      simp at h

/-- C4: loading a non-empty batch is atomic — with the connection open, if
any row of the batch is rejected by the destination, the table is unchanged
(the raised error skips `conn.commit()` and the connection closes, discarding
the transaction); if no row is rejected, exactly the batch's rows, in order,
are appended. -/
theorem batch_load_atomic (fails : List (Option V) → Bool)
    (data_df : DataFrame) (db : List (Nat × StoredRow)) (b : Nat)
    (hne : data_df.rows ≠ []) :
    ((∃ r ∈ data_df.rows, fails (tupleOf data_df.cols r) = true) →
      applyLoad b db (insert_data_to_postgres true fails data_df) = db) ∧
    ((∀ r ∈ data_df.rows, fails (tupleOf data_df.cols r) = false) →
      applyLoad b db (insert_data_to_postgres true fails data_df) =
        db ++ (data_df.rows.map (storedRowOf data_df.cols)).map
          (fun row => (b, row))) := by
  constructor
  · intro h
    rw [insert_conn_ok,
      insertLoop_error_of_exists fails data_df.cols data_df.rows [] h]
    rfl
  · intro h
    rw [insert_conn_ok,
      insertLoop_ok_of_all fails data_df.cols data_df.rows [] h]
    simp [applyLoad]

/-- Instantiation of `batch_load_atomic`: a two-row batch whose second row is
rejected leaves the table empty. -/
theorem batch_load_atomic_witness :
    applyLoad 0 [] (insert_data_to_postgres true
      (fun t => decide (t = [some (V.nat 2)]))
      ⟨["id"], [[("id", V.nat 1)], [("id", V.nat 2)]]⟩) = [] :=
  (batch_load_atomic (fun t => decide (t = [some (V.nat 2)]))
    ⟨["id"], [[("id", V.nat 1)], [("id", V.nat 2)]]⟩ [] 0 (by decide)).1
    (by decide)

/-! ### Orchestrator: properties of `runBatches` / `fetch_and_insert_data` -/

theorem runBatches_db_extends (env : Env) (chunks : List (List String)) :
    ∀ (b : Nat) (db : List (Nat × StoredRow)),
      ∃ extra, (runBatches env db chunks b).db = db ++ extra := by
  induction chunks with
  | nil => intro b db; exact ⟨[], by simp [runBatches]⟩
  | cons ch rest ih =>
    intro b db
    simp only [runBatches]
    split
    · exact ⟨[], by simp⟩
    next data_df hdf =>
      split
      · exact ih (b + 1) db
      · split
        · exact ⟨[], by simp⟩
        next heq =>
          cases hi : insert_data_to_postgres (env.connOk b) env.rowFails data_df with
          | nameError => exact absurd hi heq
          | rolledBack =>
            simp only [applyLoad]
            exact ih (b + 1) db
          | committed rows =>
            simp only [applyLoad]
            rcases ih (b + 1) (db ++ rows.map (fun r => (b, r))) with ⟨extra, hx⟩
            exact ⟨rows.map (fun r => (b, r)) ++ extra,
              by rw [hx, List.append_assoc]⟩

theorem runBatches_congr (env1 env2 : Env) (hf : env1.fetch = env2.fetch)
    (hc : env1.connOk = env2.connOk) (hr : env1.rowFails = env2.rowFails)
    (chunks : List (List String)) :
    ∀ (b : Nat) (db : List (Nat × StoredRow)),
      runBatches env1 db chunks b = runBatches env2 db chunks b := by
  induction chunks with
  | nil => intro b db; rfl
  | cons ch rest ih =>
    intro b db
    simp only [runBatches, hf, hc, hr]
    split
    · rfl
    next data_df hdf =>
      split
      · rw [ih (b + 1) db]
      · split
        · rfl
        next heq =>
          cases hi : insert_data_to_postgres (env2.connOk b) env2.rowFails data_df with
          | nameError => exact absurd hi heq
          | rolledBack => rw [ih (b + 1) _]
          | committed rows => rw [ih (b + 1) _]

/-- C10: when `psycopg2.connect` fails for the load of batch `b` (a loader
failure before the first row insert), the except handler of
`insert_data_to_postgres` references the never-bound loop variable `row`,
raising `NameError`; the batch loop of `fetch_and_insert_data` has no
handler, so the run aborts: the table keeps only the previously committed
rows and no later batch is attempted — unlike a row-level insert error,
which is contained. -/
theorem loader_conn_failure_raises_nameerror (env : Env)
    (db : List (Nat × StoredRow)) (chunk : List String)
    (rest : List (List String)) (b : Nat) (data_df : DataFrame)
    (hfetch : api_to_df (env.fetch b) b = .ok data_df)
    (hne : data_df.isEmpty = false)
    (hconn : env.connOk b = false) :
    insert_data_to_postgres (env.connOk b) env.rowFails data_df =
      .nameError ∧
    runBatches env db (chunk :: rest) b =
      ⟨db, [b], some (.loaderNameError b)⟩ := by
  have h1 : insert_data_to_postgres (env.connOk b) env.rowFails data_df =
      .nameError := by
    rw [hconn]
    rfl
  exact ⟨h1, by simp [runBatches, hfetch, hne, h1]⟩

/-- Instantiation of `loader_conn_failure_raises_nameerror`: a failed load
connection on batch 0 of 2 aborts the run with batch 1 unattempted. -/
theorem loader_conn_failure_raises_nameerror_witness :
    runBatches envConnFail [] (List.replicate 50 "00501" :: [["00501"]]) 0 =
      ⟨[], [0], some (.loaderNameError 0)⟩ :=
  (loader_conn_failure_raises_nameerror envConnFail []
    (List.replicate 50 "00501") [["00501"]] 0 (projectedSample 0)
    (by rfl) (by rfl) (by rfl)).2

/-- C5 (amended): a row-level load failure on batch `b` — connection open,
some row rejected — is contained: `insert_data_to_postgres` catches the
error (the loop variable is bound, so logging succeeds) and commits
nothing, and the orchestrator advances to batch `b + 1` with the table
handed over unchanged; rows committed by earlier batches are never removed
(the table only ever grows).  A loader failure before the first row insert
is NOT contained: it raises `NameError` and aborts the run (see C10). -/
theorem row_level_load_failure_contained (env : Env)
    (db : List (Nat × StoredRow)) (chunk : List String)
    (rest : List (List String)) (b : Nat) (data_df : DataFrame)
    (hfetch : api_to_df (env.fetch b) b = .ok data_df)
    (hne : data_df.isEmpty = false)
    (hconn : env.connOk b = true)
    (hfail : ∃ r ∈ data_df.rows,
      env.rowFails (tupleOf data_df.cols r) = true) :
    runBatches env db (chunk :: rest) b =
      ⟨(runBatches env db rest (b + 1)).db,
        b :: (runBatches env db rest (b + 1)).attempted,
        (runBatches env db rest (b + 1)).aborted⟩ ∧
    ∃ extra, (runBatches env db (chunk :: rest) b).db = db ++ extra := by
  have hins : insert_data_to_postgres (env.connOk b) env.rowFails data_df =
      .rolledBack := by
    rw [hconn, insert_conn_ok,
      insertLoop_error_of_exists _ _ _ _ hfail]
  have hmain : runBatches env db (chunk :: rest) b =
      ⟨(runBatches env db rest (b + 1)).db,
        b :: (runBatches env db rest (b + 1)).attempted,
        (runBatches env db rest (b + 1)).aborted⟩ := by
    simp [runBatches, hfetch, hne, hins, applyLoad]
  refine ⟨hmain, ?_⟩
  rw [hmain]
  exact runBatches_db_extends env rest (b + 1) db

/-- Instantiation of `row_level_load_failure_contained`: batch 0's load is
rejected, batch 1 is still processed. -/
theorem row_level_load_failure_contained_witness :
    runBatches envRowFail [] (List.replicate 50 "00501" :: [["00501"]]) 0 =
      ⟨(runBatches envRowFail [] [["00501"]] 1).db,
        0 :: (runBatches envRowFail [] [["00501"]] 1).attempted,
        (runBatches envRowFail [] [["00501"]] 1).aborted⟩ :=
  (row_level_load_failure_contained envRowFail []
    (List.replicate 50 "00501") [["00501"]] 0 (projectedSample 0)
    (by rfl) (by rfl) (by rfl) (by decide)).1

/-- C1 (amended): a SourceClient failure on batch `b` — network error,
timeout, or malformed/non-JSON body — raises inside `api_to_df`; neither
`api_to_df` nor the batch loop catches it, so the run aborts at batch `b`:
no load is attempted for `b`, no later batch is attempted, and the table is
left exactly as it was. -/
theorem fetch_failure_aborts_run (env : Env) (db : List (Nat × StoredRow))
    (chunk : List String) (rest : List (List String)) (b : Nat)
    (h : fetchFails (env.fetch b) = true) :
    ∃ e, runBatches env db (chunk :: rest) b =
      ⟨db, [b], some (.fetchError b e)⟩ := by
  cases hf : env.fetch b with
  | ok items =>
    rw [hf] at h
    simp [fetchFails] at h
  | netError =>
    exact ⟨.requestException, by simp only [runBatches, hf, api_to_df]⟩
  | badJson =>
    exact ⟨.jsonDecodeError, by simp only [runBatches, hf, api_to_df]⟩

/-- Instantiation of `fetch_failure_aborts_run`: a timeout on batch 0 of 2
aborts the run. -/
theorem fetch_failure_aborts_run_witness :
    ∃ e, runBatches envFetchFail [] (List.replicate 50 "00501" :: [["00501"]]) 0 =
      ⟨[], [0], some (.fetchError 0 e)⟩ :=
  fetch_failure_aborts_run envFetchFail [] (List.replicate 50 "00501")
    [["00501"]] 0 (by rfl)

/-- C2 (amended): a SchemaManager failure is caught inside `create_table`
and only logged — `fetch_and_insert_data` then fetches, projects and loads
every batch exactly as it would have with a healthy schema step; the run
does not terminate early. -/
theorem schema_failure_only_logged (ok1 ok2 : Bool) (f : Nat → FetchResult)
    (c : Nat → Bool) (r : List (Option V) → Bool) (keys : List String) :
    (fetch_and_insert_data ⟨ok1, f, c, r⟩ keys).2 =
      (fetch_and_insert_data ⟨ok2, f, c, r⟩ keys).2 ∧
    (fetch_and_insert_data ⟨false, f, c, r⟩ keys).1 = .failedLogged := by
  refine ⟨?_, rfl⟩
  simp only [fetch_and_insert_data]
  exact runBatches_congr ⟨ok1, f, c, r⟩ ⟨ok2, f, c, r⟩ rfl rfl rfl _ 0 []

/-- C8 (amended): a structurally invalid (non-mapping) element in a batch's
response makes pandas raise while `api_to_df` processes the batch; nothing
skips the offending record — the whole batch raises, and since the batch
loop has no handler the run aborts with no record of the batch loaded and
no later batch attempted. -/
theorem invalid_record_aborts_batch_and_run (env : Env)
    (db : List (Nat × StoredRow)) (chunk : List String)
    (rest : List (List String)) (b : Nat) (items : List RawItem)
    (hf : env.fetch b = .ok items) (hbad : RawItem.nonMapping ∈ items) :
    api_to_df (env.fetch b) b = .error .pdError ∧
    runBatches env db (chunk :: rest) b =
      ⟨db, [b], some (.fetchError b .pdError)⟩ := by
  have hb : buildDataFrame items = .error .pdError := by
    unfold buildDataFrame
    have hany : items.any (fun it =>
        match it with
        | .nonMapping => true
        | .record _ => false) = true :=
      List.any_eq_true.mpr ⟨.nonMapping, hbad, rfl⟩
    simp [hany]
  have hapi : api_to_df (env.fetch b) b = .error .pdError := by
    rw [hf]
    simp only [api_to_df, hb]
    rfl
  exact ⟨hapi, by simp [runBatches, hapi]⟩

/-- Instantiation of `invalid_record_aborts_batch_and_run`: one valid and
one non-mapping element abort the single-batch run. -/
theorem invalid_record_aborts_batch_and_run_witness :
    runBatches envInvalidRecord [] [keysOneBatch] 0 =
      ⟨[], [0], some (.fetchError 0 .pdError)⟩ :=
  (invalid_record_aborts_batch_and_run envInvalidRecord [] keysOneBatch []
    0 [.record sampleRecord, .nonMapping] (by rfl) (by decide)).2

/-! ### Counterexamples to the claims as stated -/

/-- Counterexample to C1: with two batches and a network failure (timeout)
on batch 0's fetch, the run aborts at batch 0 — batch 1 is never attempted
and contributes nothing, where the claim requires every subsequent batch to
still be attempted. -/
theorem cex_fetch_failure_aborts_entire_run :
    (fetch_and_insert_data envFetchFail keysTwoBatches).2 =
      ⟨[], [0], some (.fetchError 0 .requestException)⟩ ∧
    (fetch_and_insert_data envFetchFail keysTwoBatches).2.attempted ≠
      [0, 1] := by
  decide

/-- Counterexample to C2: with a failing schema step, the run does not
terminate — batch 0 is fetched, projected and loaded (one row lands in the
table), where the claim requires no batch processing after the failure. -/
theorem cex_schema_failure_not_fatal :
    (fetch_and_insert_data envSchemaFail keysOneBatch).1 = .failedLogged ∧
    (fetch_and_insert_data envSchemaFail keysOneBatch).2.attempted = [0] ∧
    (fetch_and_insert_data envSchemaFail keysOneBatch).2.db ≠ [] := by
  decide

/-- Counterexample to C3: a healthy single-batch run over a record whose
source `id` is 7 stores a row whose destination `id` column holds 7 — the
insert writes the source-provided identifier into the primary-key column,
where the claim says `id` is never written by the insert. -/
theorem cex_source_id_written :
    (fetch_and_insert_data envGood keysOneBatch).2.db.map
      (fun p => lookupStored p.2 "id") = [some (some (V.nat 7))] := by
  decide

/-- Counterexample to C5: a BatchLoader failure caused by a failed
connection on batch 0 (of two) aborts the whole run — batch 1 is never
attempted, where the claim says a loader failure never prevents later
batches. -/
theorem cex_loader_conn_failure_blocks_rest :
    (fetch_and_insert_data envConnFail keysTwoBatches).2 =
      ⟨[], [0], some (.loaderNameError 0)⟩ := by
  decide

/-- Counterexample to C7: a batch whose single record lacks `latitude`
makes `data_df[export_columns]` raise `KeyError` (the column exists in no
record, hence not in the frame) — the claim instead requires a projected
record with a NULL `latitude`. -/
theorem cex_missing_latitude_raises_keyerror :
    api_to_df (.ok [.record recordNoLatitude]) 0 = .error .pdError := by
  rfl

/-- Counterexample to C8: a batch holding one valid record and one
non-mapping element loads nothing — not even the valid record — and aborts
the run, where the claim says only the invalid record is skipped. -/
theorem cex_invalid_record_aborts :
    (fetch_and_insert_data envInvalidRecord keysOneBatch).2.db = [] ∧
    (fetch_and_insert_data envInvalidRecord keysOneBatch).2.aborted =
      some (.fetchError 0 .pdError) := by
  decide

/-! ### RecordProjector: cell-level semantics of `api_to_df` -/

theorem find_none_on_filtered (r : RawRecord) (c : String) :
    (r.filter (fun p => p.1 ≠ c)).find? (fun p => p.1 = c) = none := by
  rw [List.find?_eq_none]
  intro x hx
  have h2 := (List.mem_filter.mp hx).2
  simp at h2 ⊢
  exact h2

theorem find_filter_irrelevant (l : RawRecord) (c c2 : String)
    (hne : c ≠ c2) :
    (l.filter (fun p => p.1 ≠ c2)).find? (fun p => p.1 = c) =
      l.find? (fun p => p.1 = c) := by
  rw [List.find?_filter]
  congr 1
  funext a
  by_cases ha : a.1 = c
  · have h3 : a.1 ≠ c2 := by rw [ha]; exact hne
    simp [ha, h3, hne]
  · simp [ha]

theorem lookupField_stamped (r : RawRecord) (c : String) (b : Nat) :
    lookupField (r.filter (fun p => p.1 ≠ "batch_id") ++
        [("batch_id", V.nat b)]) c =
      if c = "batch_id" then some (V.nat b) else lookupField r c := by
  unfold lookupField
  rw [List.find?_append]
  by_cases hc : c = "batch_id"
  · subst hc
    rw [find_none_on_filtered]
    simp [List.find?]
  · rw [find_filter_irrelevant r c "batch_id" hc]
    have h2 : ([(("batch_id" : String), V.nat b)]).find?
        (fun p => p.1 = c) = none := by
      rw [List.find?_cons_of_neg _ (by simp; exact fun h => hc h.symm)]
      rfl
    rw [h2]
    cases hf : r.find? (fun p => p.1 = c) with
    | some x => simp [hc]
    | none => simp [hc]

theorem lookupStored_storedRowOf (cs : List String) (r : RawRecord)
    (c : String) (hc : c ∈ cs) :
    lookupStored (storedRowOf cs r) c = some (lookupField r c) := by
  unfold lookupStored storedRowOf
  induction cs with
  | nil => cases hc
  | cons c0 t ih =>
    by_cases h : c0 = c
    · subst h
      rw [List.map_cons, List.find?_cons_of_pos _ (by simp)]
      rfl
    · rw [List.map_cons, List.find?_cons_of_neg _ (by simp [h])]
      refine ih ?_
      rcases List.mem_cons.mp hc with h2 | h2
      · exact absurd h2.symm h
      · exact h2

theorem mem_addKeys (c : String) (r : RawRecord) :
    ∀ acc : List String,
      (c ∈ addKeys acc r ↔ c ∈ acc ∨ ∃ v, (c, v) ∈ r) := by
  induction r with
  | nil => intro acc; simp [addKeys]
  | cons p t ih =>
    intro acc
    obtain ⟨k, v0⟩ := p
    have hstep : addKeys acc ((k, v0) :: t) =
        addKeys (if k ∈ acc then acc else acc ++ [k]) t := rfl
    rw [hstep, ih]
    by_cases hk : k ∈ acc
    · rw [if_pos hk]
      constructor
      · rintro (h1 | ⟨v, hv⟩)
        · exact Or.inl h1
        · exact Or.inr ⟨v, List.mem_cons_of_mem _ hv⟩
      · rintro (h1 | ⟨v, hv⟩)
        · exact Or.inl h1
        · rcases List.mem_cons.mp hv with h2 | h2
          · have h3 : c = k := congrArg Prod.fst h2
            exact Or.inl (h3 ▸ hk)
          · exact Or.inr ⟨v, h2⟩
    · rw [if_neg hk]
      constructor
      · rintro (h1 | ⟨v, hv⟩)
        · rcases List.mem_append.mp h1 with h2 | h2
          · exact Or.inl h2
          · have h3 : c = k := by simpa using h2
            exact Or.inr ⟨v0, by rw [h3]; exact List.mem_cons_self _ _⟩
        · exact Or.inr ⟨v, List.mem_cons_of_mem _ hv⟩
      · rintro (h1 | ⟨v, hv⟩)
        · exact Or.inl (List.mem_append.mpr (Or.inl h1))
        · rcases List.mem_cons.mp hv with h2 | h2
          · have h3 : c = k := congrArg Prod.fst h2
            exact Or.inl (List.mem_append.mpr (Or.inr (by simp [h3])))
          · exact Or.inr ⟨v, h2⟩

theorem mem_unionKeys (c : String) (rs : List RawRecord) :
    c ∈ unionKeys rs ↔ ∃ r ∈ rs, ∃ v, (c, v) ∈ r := by
  suffices h : ∀ acc : List String,
      (c ∈ rs.foldl addKeys acc ↔ c ∈ acc ∨ ∃ r ∈ rs, ∃ v, (c, v) ∈ r) by
    have h2 := h []
    simpa [unionKeys] using h2
  induction rs with
  | nil => intro acc; simp
  | cons r t ih =>
    intro acc
    rw [List.foldl_cons, ih (addKeys acc r), mem_addKeys]
    constructor
    · rintro ((h1 | ⟨v, hv⟩) | ⟨r2, hr2, v, hv⟩)
      · exact Or.inl h1
      · exact Or.inr ⟨r, List.mem_cons_self _ _, v, hv⟩
      · exact Or.inr ⟨r2, List.mem_cons_of_mem _ hr2, v, hv⟩
    · rintro (h1 | ⟨r2, hr2, v, hv⟩)
      · exact Or.inl (Or.inl h1)
      · rcases List.mem_cons.mp hr2 with h2 | h2
        · exact Or.inl (Or.inr ⟨v, h2 ▸ hv⟩)
        · exact Or.inr ⟨r2, h2, v, hv⟩

theorem buildDataFrame_records (recs : List RawRecord) :
    buildDataFrame (recs.map RawItem.record) =
      .ok ⟨unionKeys recs, recs⟩ := by
  unfold buildDataFrame
  have h1 : (recs.map RawItem.record).any (fun it =>
      match it with
      | .nonMapping => true
      | .record _ => false) = false := by
    rw [List.any_eq_false]
    intro x hx
    rcases List.mem_map.mp hx with ⟨r, _, rfl⟩
    simp
  rw [h1]
  have h2 : (recs.map RawItem.record).filterMap (fun it =>
      match it with
      | .record r => some r
      | .nonMapping => none) = recs := by
    rw [List.filterMap_map]
    have hfun : ((fun it =>
        match it with
        | RawItem.record r => some r
        | RawItem.nonMapping => none) ∘ RawItem.record) =
        (some : RawRecord → Option RawRecord) := funext fun r => rfl
    rw [hfun, List.filterMap_some]
  rw [if_neg (by simp), h2]

theorem api_to_df_ok_eq (items : List RawItem) (b : Nat) (df0 : DataFrame)
    (h : buildDataFrame items = .ok df0) :
    api_to_df (.ok items) b =
      if df0.isEmpty then .ok ⟨[], []⟩
      else selectColumns (setColumn df0 "batch_id" (V.nat b))
        export_columns := by
  simp only [api_to_df]
  rw [h]
  rfl

theorem api_to_df_err_eq (items : List RawItem) (b : Nat) (e : Err)
    (h : buildDataFrame items = .error e) :
    api_to_df (.ok items) b = .error e := by
  simp only [api_to_df]
  rw [h]
  rfl

theorem api_to_df_records_ok (recs : List RawRecord) (b : Nat)
    (hrecs : recs ≠ [])
    (hcov : ∀ c ∈ export_columns,
      c = "batch_id" ∨ ∃ r ∈ recs, ∃ v, (c, v) ∈ r) :
    api_to_df (.ok (recs.map RawItem.record)) b =
      .ok ⟨export_columns,
        recs.map (fun r =>
          r.filter (fun p => p.1 ≠ "batch_id") ++
            [("batch_id", V.nat b)])⟩ := by
  have hacc : "access_code" ∈ unionKeys recs := by
    rcases hcov "access_code" (by simp [export_columns]) with h | ⟨r, hr, v, hv⟩
    · exact absurd h (by decide)
    · exact (mem_unionKeys _ _).mpr ⟨r, hr, v, hv⟩
  have hcolsne : unionKeys recs ≠ [] := List.ne_nil_of_mem hacc
  rw [api_to_df_ok_eq _ b _ (buildDataFrame_records recs)]
  have hie : (DataFrame.mk (unionKeys recs) recs).isEmpty = false := by
    simp [DataFrame.isEmpty, hrecs, hcolsne]
  rw [if_neg (by simp [hie])]
  unfold setColumn selectColumns
  have hsubAll : ∀ c ∈ export_columns,
      c ∈ (if ("batch_id" : String) ∈ unionKeys recs
           then unionKeys recs else unionKeys recs ++ ["batch_id"]) := by
    intro c hc
    by_cases hcb : c = "batch_id"
    · subst hcb
      by_cases hm : ("batch_id" : String) ∈ unionKeys recs
      · rw [if_pos hm]; exact hm
      · rw [if_neg hm]; exact List.mem_append.mpr (Or.inr (by simp))
    · have h3 : c ∈ unionKeys recs := by
        rcases hcov c hc with h4 | ⟨r, hr, v, hv⟩
        · exact absurd h4 hcb
        · exact (mem_unionKeys c recs).mpr ⟨r, hr, v, hv⟩
      by_cases hm : ("batch_id" : String) ∈ unionKeys recs
      · rw [if_pos hm]; exact h3
      · rw [if_neg hm]; exact List.mem_append.mpr (Or.inl h3)
  rw [if_pos (List.all_eq_true.mpr
    (fun c hc => decide_eq_true (hsubAll c hc)))]

theorem lookupField_isSome_iff (r : RawRecord) (c : String) :
    (lookupField r c).isSome = true ↔ ∃ v, (c, v) ∈ r := by
  unfold lookupField
  constructor
  · intro h
    cases hf : r.find? (fun p => p.1 = c) with
    | none => rw [hf] at h; simp at h
    | some x =>
      have hx := List.find?_some hf
      have hmem := List.mem_of_find?_eq_some hf
      have h2 : x.1 = c := by simpa using hx
      exact ⟨x.2, by rw [← h2]; exact hmem⟩
  · rintro ⟨v, hv⟩
    have h3 : ((r.find? (fun p => p.1 = c)).isSome) = true :=
      List.find?_isSome.mpr ⟨(c, v), hv, by simp⟩
    cases hf : r.find? (fun p => p.1 = c) with
    | none => rw [hf] at h3; simp at h3
    | some x => simp [hf]

/-- C7 (amended): provided every projected column other than the stamped
`batch_id` occurs in at least one record of the batch (otherwise
`data_df[export_columns]` raises `KeyError` for the whole batch — see the
counterexample), projecting a non-empty batch of mappings succeeds, yields
exactly the fixed column set, and each projected record takes every field
verbatim from its RawRecord when present and NULL (`none`) when absent,
with `batch_id` set to the batch's id. -/
theorem projection_verbatim_or_null (recs : List RawRecord) (b : Nat)
    (hrecs : recs ≠ [])
    (hcov : ∀ c ∈ export_columns,
      c = "batch_id" ∨ ∃ r ∈ recs, (lookupField r c).isSome = true) :
    ∃ data_df, api_to_df (.ok (recs.map RawItem.record)) b = .ok data_df ∧
      data_df.cols = export_columns ∧
      data_df.rows.length = recs.length ∧
      ∀ (i : Nat) (hi : i < data_df.rows.length) (hi2 : i < recs.length),
        ∀ c ∈ export_columns,
          lookupField (data_df.rows.get ⟨i, hi⟩) c =
            if c = "batch_id" then some (V.nat b)
            else lookupField (recs.get ⟨i, hi2⟩) c := by
  have hcov2 : ∀ c ∈ export_columns,
      c = "batch_id" ∨ ∃ r ∈ recs, ∃ v, (c, v) ∈ r := by
    intro c hc
    rcases hcov c hc with h | ⟨r, hr, hs⟩
    · exact Or.inl h
    · exact Or.inr ⟨r, hr, (lookupField_isSome_iff r c).mp hs⟩
  refine ⟨_, api_to_df_records_ok recs b hrecs hcov2, rfl, by simp, ?_⟩
  intro i hi hi2 c _hc
  have hget : (recs.map (fun r =>
      r.filter (fun p => p.1 ≠ "batch_id") ++
        [("batch_id", V.nat b)])).get ⟨i, hi⟩ =
      (recs.get ⟨i, hi2⟩).filter (fun p => p.1 ≠ "batch_id") ++
        [("batch_id", V.nat b)] := by
    rw [List.get_eq_getElem, List.get_eq_getElem, List.getElem_map]
  rw [hget]
  exact lookupField_stamped _ c b

/-- Instantiation of `projection_verbatim_or_null` on a two-record batch
whose first record lacks `latitude` while the second supplies it. -/
theorem projection_verbatim_or_null_witness :
    ∃ data_df,
      api_to_df (.ok (([recordNoLatitude, sampleRecord] :
          List RawRecord).map RawItem.record)) 1 = .ok data_df ∧
      data_df.cols = export_columns ∧
      data_df.rows.length =
        ([recordNoLatitude, sampleRecord] : List RawRecord).length ∧
      ∀ (i : Nat) (hi : i < data_df.rows.length)
        (hi2 : i < ([recordNoLatitude, sampleRecord] :
          List RawRecord).length),
        ∀ c ∈ export_columns,
          lookupField (data_df.rows.get ⟨i, hi⟩) c =
            if c = "batch_id" then some (V.nat 1)
            else lookupField (([recordNoLatitude, sampleRecord] :
              List RawRecord).get ⟨i, hi2⟩) c :=
  projection_verbatim_or_null [recordNoLatitude, sampleRecord] 1
    (by decide) (by decide)

/-- C3 (amended): `"id"` is part of the insert column list, and every
stored row's destination `id` value is exactly the source record's `id`
field — the insert writes the source-provided identifier into the `id`
primary-key column, overriding the synthetic auto-increment, rather than
excluding it. -/
theorem source_id_written_by_insert (recs : List RawRecord) (b : Nat)
    (hrecs : recs ≠ [])
    (hcov : ∀ c ∈ export_columns,
      c = "batch_id" ∨ ∃ r ∈ recs, (lookupField r c).isSome = true) :
    "id" ∈ export_columns ∧
    ∃ data_df, api_to_df (.ok (recs.map RawItem.record)) b = .ok data_df ∧
      data_df.cols = export_columns ∧
      data_df.rows.length = recs.length ∧
      ∀ (i : Nat) (hi : i < data_df.rows.length) (hi2 : i < recs.length),
        lookupStored (storedRowOf data_df.cols (data_df.rows.get ⟨i, hi⟩))
            "id" = some (lookupField (recs.get ⟨i, hi2⟩) "id") := by
  have hcov2 : ∀ c ∈ export_columns,
      c = "batch_id" ∨ ∃ r ∈ recs, ∃ v, (c, v) ∈ r := by
    intro c hc
    rcases hcov c hc with h | ⟨r, hr, hs⟩
    · exact Or.inl h
    · exact Or.inr ⟨r, hr, (lookupField_isSome_iff r c).mp hs⟩
  refine ⟨by simp [export_columns], _,
    api_to_df_records_ok recs b hrecs hcov2, rfl, by simp, ?_⟩
  intro i hi hi2
  rw [lookupStored_storedRowOf _ _ _ (by simp [export_columns])]
  have hget : (recs.map (fun r =>
      r.filter (fun p => p.1 ≠ "batch_id") ++
        [("batch_id", V.nat b)])).get ⟨i, hi⟩ =
      (recs.get ⟨i, hi2⟩).filter (fun p => p.1 ≠ "batch_id") ++
        [("batch_id", V.nat b)] := by
    rw [List.get_eq_getElem, List.get_eq_getElem, List.getElem_map]
  rw [hget, lookupField_stamped _ "id" b]
  simp

/-- Instantiation of `source_id_written_by_insert` on a single-record batch
with source id 7. -/
theorem source_id_written_by_insert_witness :
    "id" ∈ export_columns ∧
    ∃ data_df, api_to_df (.ok (([sampleRecord] :
        List RawRecord).map RawItem.record)) 0 = .ok data_df ∧
      data_df.cols = export_columns ∧
      data_df.rows.length = ([sampleRecord] : List RawRecord).length ∧
      ∀ (i : Nat) (hi : i < data_df.rows.length)
        (hi2 : i < ([sampleRecord] : List RawRecord).length),
        lookupStored (storedRowOf data_df.cols (data_df.rows.get ⟨i, hi⟩))
            "id" = some (lookupField (([sampleRecord] :
              List RawRecord).get ⟨i, hi2⟩) "id") :=
  source_id_written_by_insert [sampleRecord] 0 (by decide) (by decide)

/-! ### Traceability: `batch_id` stamping across a whole run -/

theorem api_to_df_ok_shape (fr : FetchResult) (b : Nat) (df : DataFrame)
    (h : api_to_df fr b = .ok df) (hne : df.isEmpty = false) :
    df.cols = export_columns ∧
    ∀ r ∈ df.rows, lookupField r "batch_id" = some (V.nat b) := by
  cases fr with
  | netError => simp [api_to_df] at h
  | badJson => simp [api_to_df] at h
  | ok items =>
    cases hb : buildDataFrame items with
    | error e =>
      rw [api_to_df_err_eq items b e hb] at h
      simp at h
    | ok df0 =>
      rw [api_to_df_ok_eq items b df0 hb] at h
      by_cases hie : df0.isEmpty = true
      · rw [if_pos hie] at h
        have hdf : (DataFrame.mk [] []) = df := Except.ok.inj h
        rw [← hdf] at hne
        simp [DataFrame.isEmpty] at hne
      · rw [if_neg hie] at h
        unfold selectColumns at h
        split at h
        · have hdf := Except.ok.inj h
          constructor
          · rw [← hdf]
          · intro r hr
            rw [← hdf] at hr
            have hrows : (setColumn df0 "batch_id" (V.nat b)).rows =
                df0.rows.map (fun r0 =>
                  r0.filter (fun p => p.1 ≠ "batch_id") ++
                    [("batch_id", V.nat b)]) := rfl
            simp only [hrows] at hr
            rcases List.mem_map.mp hr with ⟨r0, _, rfl⟩
            rw [lookupField_stamped r0 "batch_id" b]
            simp
        · simp at h

/-- C9: for every run, every row stored in the destination table carries a
`batch_id` value equal to the id of the batch whose fetch and load produced
it (the first component of the pair is the model's ghost provenance tag:
the batch during whose `Loading` the row was committed).  `api_to_df`
stamps every projected row of batch `b` with `batch_id = b` before the
load, and no later operation rewrites a stored row. -/
theorem stored_rows_stamped_with_batch (env : Env) (keys : List String) :
    ∀ p ∈ (fetch_and_insert_data env keys).2.db,
      lookupStored p.2 "batch_id" = some (some (V.nat p.1)) := by
  suffices h : ∀ (chunks : List (List String)) (b : Nat)
      (db : List (Nat × StoredRow)),
      (∀ p ∈ db, lookupStored p.2 "batch_id" = some (some (V.nat p.1))) →
      ∀ p ∈ (runBatches env db chunks b).db,
        lookupStored p.2 "batch_id" = some (some (V.nat p.1)) by
    exact fun p hp => h _ 0 [] (by simp) p hp
  intro chunks
  induction chunks with
  | nil =>
    intro b db hdb
    exact hdb
  | cons ch rest ih =>
    intro b db hdb
    simp only [runBatches]
    split
    · exact hdb
    next data_df hdf =>
      split
      · exact ih (b + 1) db hdb
      next hemp =>
        split
        · exact hdb
        next heq =>
          cases hi : insert_data_to_postgres (env.connOk b) env.rowFails data_df with
          | nameError => exact absurd hi heq
          | rolledBack =>
            simp only [applyLoad]
            exact ih (b + 1) db hdb
          | committed rows =>
            simp only [applyLoad]
            apply ih (b + 1)
            intro p hp
            rcases List.mem_append.mp hp with hp1 | hp2
            · exact hdb p hp1
            · rcases List.mem_map.mp hp2 with ⟨row, hrow, rfl⟩
              have hrows := insert_committed_rows (env.connOk b)
                env.rowFails data_df rows hi
              rw [hrows] at hrow
              rcases List.mem_map.mp hrow with ⟨r0, hr0, rfl⟩
              have hne2 : data_df.isEmpty = false :=
                Bool.eq_false_iff.mpr hemp
              have hshape := api_to_df_ok_shape (env.fetch b) b data_df
                hdf hne2
              rw [lookupStored_storedRowOf data_df.cols r0 "batch_id"
                (by rw [hshape.1]; simp [export_columns])]
              rw [hshape.2 r0 hr0]

/-- Instantiation of `stored_rows_stamped_with_batch`: the row stored by a
healthy single-batch run carries `batch_id = 0`. -/
theorem stored_rows_stamped_with_batch_witness :
    lookupStored storedSampleRow "batch_id" = some (some (V.nat 0)) :=
  stored_rows_stamped_with_batch envGood keysOneBatch (0, storedSampleRow)
    (by decide)
